import Mathlib

/-!
Verification development for the Smart-Charger-Software repository.

The definitions below are a shallow embedding of the charging-cycle state
machine and its helpers:

* `Charge_Cycle.start` — the regulation-relevant part of
  `Charge_Cycle::start()` (src/src/cycle.cpp)
* `Fast_Charger.run`, `Topping_Charger.run`, `Trickle_Charger.run`,
  `Standby_Charger.run` — the phase handlers (src/src/fast.cpp,
  topping.cpp, trickle.cpp, standby.cpp)
* `loop_step` — the supervisor switch in `loop()` (src/src/main.cpp)
* `Vreg.get_current_mA` — the diode-drop current filter
  (src/src/regulator.cpp)
* `pow10`, `milliunits_to_string` — the decimal formatter (src/src/cycle.cpp)
* `RingBuffer16` — the ring buffer (src/lib/ring_buffer/ringbuffer.cpp)

All machine integers in the source are `uint32_t` (`voltage_mv_t`,
`current_ma_t`, `time_ms_t`) or `uint16_t`; they are modelled as `Nat`
with explicit reduction modulo `2^32` (`add32`/`sub32`) at the operations
where overflow or underflow can actually occur.  Console, LED and display
output does not influence any modelled field and is omitted.
-/

namespace SmartCharger

/-- The uint32 modulus. -/
def U32 : ℕ := 4294967296

/-- uint32 addition (wraps modulo 2^32). -/
def add32 (a b : ℕ) : ℕ := (a + b) % U32

/-- uint32 subtraction (wraps modulo 2^32 on underflow); arguments are
reduced first so the result is always the uint32 value of `a - b`. -/
def sub32 (a b : ℕ) : ℕ := (a % U32 + (U32 - b % U32)) % U32

/-! Constants from src/src/obcharger.h. -/

/-- Voltage regulator minimum allowable voltage (mV). -/
def VREG_VOLTAGE_MIN : ℕ := 5000

/-- Voltage regulator maximum allowable voltage (mV). -/
def VREG_VOLTAGE_MAX : ℕ := 16000

/-- Threshold voltage (mV) used to determine initial charge state. -/
def BATTERY_DISCHARGED_MV : ℕ := 13000

/-- Voltage hysteresis limits (mV) for charging cycles. -/
def VOLTS_HYSTERESIS : ℕ := 100

/-- Battery capacity in mA-hours. -/
def BATTERY_CAPACITY : ℕ := 5500

/-- One second in milliseconds. -/
def SECOND_MS : ℕ := 1000

/-- One hour in milliseconds. -/
def HOUR_MS : ℕ := 3600000

/-- One week in milliseconds. -/
def WEEK_MS : ℕ := 604800000

/-- Charging cycle states (`cycle_state_t` in obcharger.h). -/
inductive CycleState where
  | CYCLE_INIT
  | CYCLE_STARTUP
  | CYCLE_RUNNING
  | CYCLE_DONE
  | CYCLE_ERROR
  | CYCLE_TIMEOUT
  deriving DecidableEq, Repr

/-- Global charger states (`charger_state_t` in obcharger.h). -/
inductive ChargerState where
  | CHARGER_STARTUP
  | CHARGER_MENU
  | CHARGER_FAST
  | CHARGER_TOPPING
  | CHARGER_TRICKLE
  | CHARGER_STANDBY
  | CHARGER_SHUTDOWN
  | CHARGER_LOAD_TEST
  | CHARGER_CONDITION
  deriving DecidableEq, Repr

/-- Charging parameters (`charge_parm_t` in cycle.h).  Only the numeric
fields that influence regulation and state transitions are modelled; the
LED periods, colors, display periods and title strings affect only I/O. -/
structure charge_parm_t where
  current_target : ℕ
  current_max : ℕ
  voltage_target : ℕ
  voltage_step : ℕ
  charge_period_max : ℕ
  startup_period : ℕ
  deriving DecidableEq, Repr

/-- `FAST_PARMS` from cycle.h. -/
def FAST_PARMS : charge_parm_t :=
  { current_target := BATTERY_CAPACITY / 7
    current_max := 600
    voltage_target := 14400
    voltage_step := 10
    charge_period_max := 4 * HOUR_MS
    startup_period := 60 * SECOND_MS }

/-- `TOP_PARMS` from cycle.h. -/
def TOP_PARMS : charge_parm_t :=
  { current_target := BATTERY_CAPACITY / 20
    current_max := 600
    voltage_target := 14000
    voltage_step := 10
    charge_period_max := 8 * HOUR_MS
    startup_period := 120 * SECOND_MS }

/-- `TRCKL_PARMS` from cycle.h. -/
def TRCKL_PARMS : charge_parm_t :=
  { current_target := 0
    current_max := 600
    voltage_target := 13500
    voltage_step := 10
    charge_period_max := 8 * HOUR_MS
    startup_period := 0 }

/-- `STANDBY_PARMS` from cycle.h. -/
def STANDBY_PARMS : charge_parm_t :=
  { current_target := 0
    current_max := 0
    voltage_target := 0
    voltage_step := 0
    charge_period_max := WEEK_MS
    startup_period := 0 }

/-- The mutable state of a `Charge_Cycle` object that the claims are about,
together with the regulator enable line (`vreg.on()`/`vreg.off()` drive
`regOn`; `vreg.set_voltage*` only changes the DAC, not the enable line). -/
structure CycleSt where
  set_voltage : ℕ
  state_code : CycleState
  regOn : Bool
  deriving DecidableEq, Repr

/-- The values a `run()` call reads from its environment on one tick:
`startup_time_remaining()`, `charging_time_remaining()` (the hardware
countdown timer), `vreg.get_current_mA()` and `battery.get_voltage_mV()`.
They are free inputs, so theorems quantify over all sensor readings and
elapsed times. -/
structure TickInput where
  startupRemaining : ℕ
  chargeRemaining : ℕ
  current : ℕ
  batteryVoltage : ℕ
  deriving DecidableEq, Repr

/-- Regulation-relevant part of `Charge_Cycle::start()` (cycle.cpp lines
68-117): sets `state_code = CYCLE_STARTUP`, computes the soft-start set
voltage from the present battery voltage reading, and turns the regulator
on.  Timer and display side effects are omitted. -/
def Charge_Cycle.start (battery_voltage : ℕ) : CycleSt :=
  let sv :=
    if battery_voltage < VREG_VOLTAGE_MIN then VREG_VOLTAGE_MIN
    else if battery_voltage > VREG_VOLTAGE_MAX then VREG_VOLTAGE_MAX
    else battery_voltage - 100
  { set_voltage := sv, state_code := CycleState.CYCLE_STARTUP, regOn := true }

/-- `Charge_Cycle::stop()` (cycle.cpp lines 127-129): unconditionally turns
the regulator off. -/
def Charge_Cycle.stop (s : CycleSt) : CycleSt :=
  { s with regOn := false }

/-- `Fast_Charger::run()` (fast.cpp lines 27-108).  Returns the updated
object state and the returned `cycle_state_t`. -/
def Fast_Charger.run (p : charge_parm_t) (i : TickInput) (s : CycleSt) :
    CycleSt × CycleState :=
  -- Are we still in startup state?
  let st := if i.startupRemaining ≠ 0 then CycleState.CYCLE_STARTUP
            else CycleState.CYCLE_RUNNING
  -- Has charging cycle timed-out?
  if i.chargeRemaining = 0 then
    ({ set_voltage := s.set_voltage, state_code := CycleState.CYCLE_TIMEOUT,
       regOn := false }, CycleState.CYCLE_TIMEOUT)
  else
    -- Check for excessive set voltage level
    let sv0 := if s.set_voltage > VREG_VOLTAGE_MAX then VREG_VOLTAGE_MAX
               else s.set_voltage
    -- Fast charging cycle is complete if the target voltage has been
    -- reached and we are past the startup delay period
    if st ≠ CycleState.CYCLE_STARTUP ∧ p.voltage_target ≤ i.batteryVoltage then
      ({ set_voltage := sv0, state_code := CycleState.CYCLE_DONE,
         regOn := false }, CycleState.CYCLE_DONE)
    else
      -- Check and adjust voltage as needed (uint32 arithmetic)
      let sv1 :=
        if i.current > p.current_max then sub32 sv0 p.voltage_step
        else if i.current < p.current_target then
          (if i.batteryVoltage < p.voltage_target then add32 sv0 p.voltage_step
           else sub32 sv0 p.voltage_step)
        else sv0
      -- Ensure set voltage is below the maximum limit
      let sv2 := if sv1 > VREG_VOLTAGE_MAX then VREG_VOLTAGE_MAX else sv1
      ({ set_voltage := sv2, state_code := st, regOn := s.regOn }, st)

/-- `Topping_Charger::run()` (topping.cpp lines 33-97).  Note: unlike
`Fast_Charger::run()`, no clamp of `set_voltage` is performed here. -/
def Topping_Charger.run (p : charge_parm_t) (i : TickInput) (s : CycleSt) :
    CycleSt × CycleState :=
  let st := if i.startupRemaining ≠ 0 then CycleState.CYCLE_STARTUP
            else CycleState.CYCLE_RUNNING
  if i.chargeRemaining = 0 then
    ({ set_voltage := s.set_voltage, state_code := CycleState.CYCLE_TIMEOUT,
       regOn := false }, CycleState.CYCLE_TIMEOUT)
  else
    -- Has target been reached?
    if st ≠ CycleState.CYCLE_STARTUP ∧ i.current ≤ p.current_target then
      ({ set_voltage := s.set_voltage, state_code := CycleState.CYCLE_DONE,
         regOn := false }, CycleState.CYCLE_DONE)
    else
      let sv :=
        if i.current > p.current_max then sub32 s.set_voltage p.voltage_step
        else if i.batteryVoltage > p.voltage_target + VOLTS_HYSTERESIS then
          sub32 s.set_voltage p.voltage_step
        else if i.batteryVoltage < sub32 p.voltage_target VOLTS_HYSTERESIS then
          add32 s.set_voltage p.voltage_step
        else s.set_voltage
      ({ set_voltage := sv, state_code := st, regOn := s.regOn }, st)

/-- `Trickle_Charger::run()` (trickle.cpp lines 34-91): same regulation as
topping but with no completion (DONE) condition. -/
def Trickle_Charger.run (p : charge_parm_t) (i : TickInput) (s : CycleSt) :
    CycleSt × CycleState :=
  let st := if i.startupRemaining ≠ 0 then CycleState.CYCLE_STARTUP
            else CycleState.CYCLE_RUNNING
  if i.chargeRemaining = 0 then
    ({ set_voltage := s.set_voltage, state_code := CycleState.CYCLE_TIMEOUT,
       regOn := false }, CycleState.CYCLE_TIMEOUT)
  else
    let sv :=
      if i.current > p.current_max then sub32 s.set_voltage p.voltage_step
      else if i.batteryVoltage > p.voltage_target + VOLTS_HYSTERESIS then
        sub32 s.set_voltage p.voltage_step
      else if i.batteryVoltage < sub32 p.voltage_target VOLTS_HYSTERESIS then
        add32 s.set_voltage p.voltage_step
      else s.set_voltage
    ({ set_voltage := sv, state_code := st, regOn := s.regOn }, st)

/-- `Standby_Charger::run()` (standby.cpp lines 30-63): no startup phase,
forces the regulator off on every tick, and only counts down the idle
period. -/
def Standby_Charger.run (_p : charge_parm_t) (i : TickInput) (s : CycleSt) :
    CycleSt × CycleState :=
  -- state_code = CYCLE_RUNNING; vreg.off()
  let s1 := { s with state_code := CycleState.CYCLE_RUNNING, regOn := false }
  if i.chargeRemaining = 0 then
    ({ s1 with state_code := CycleState.CYCLE_TIMEOUT }, CycleState.CYCLE_TIMEOUT)
  else
    (s1, CycleState.CYCLE_RUNNING)

/-- The phase a supervisor transition starts (`<phase>_charger.start()`
calls in `loop()`). -/
inductive Phase where
  | fast
  | topping
  | trickle
  | standby
  deriving DecidableEq, Repr

/-- One pass of the supervisor switch in `loop()` (main.cpp lines 278-424).
`bv` is `battery.get_voltage_mV()`, `bvAvg` is
`battery.get_voltage_average_mV()`, and `r` is the value returned by the
active phase's `run()` on this tick.  The result is the new
`charger_state` plus the phase whose `start()` was called, or `none` for
the fatal-halt default branch (`while (1);`). -/
def loop_step (cs : ChargerState) (bv bvAvg : ℕ) (r : CycleState) :
    Option (ChargerState × Option Phase) :=
  match cs with
  | ChargerState.CHARGER_STARTUP =>
      if bv ≤ BATTERY_DISCHARGED_MV then
        some (ChargerState.CHARGER_FAST, some Phase.fast)
      else
        some (ChargerState.CHARGER_TOPPING, some Phase.topping)
  | ChargerState.CHARGER_FAST =>
      match r with
      | CycleState.CYCLE_STARTUP => some (ChargerState.CHARGER_FAST, none)
      | CycleState.CYCLE_RUNNING => some (ChargerState.CHARGER_FAST, none)
      | CycleState.CYCLE_DONE =>
          some (ChargerState.CHARGER_TOPPING, some Phase.topping)
      | CycleState.CYCLE_TIMEOUT => some (ChargerState.CHARGER_SHUTDOWN, none)
      | CycleState.CYCLE_ERROR => some (ChargerState.CHARGER_SHUTDOWN, none)
      | _ => some (ChargerState.CHARGER_SHUTDOWN, none)
  | ChargerState.CHARGER_TOPPING =>
      match r with
      | CycleState.CYCLE_STARTUP => some (ChargerState.CHARGER_TOPPING, none)
      | CycleState.CYCLE_RUNNING => some (ChargerState.CHARGER_TOPPING, none)
      | CycleState.CYCLE_DONE =>
          some (ChargerState.CHARGER_TRICKLE, some Phase.trickle)
      | CycleState.CYCLE_TIMEOUT => some (ChargerState.CHARGER_SHUTDOWN, none)
      | CycleState.CYCLE_ERROR => some (ChargerState.CHARGER_SHUTDOWN, none)
      | _ => some (ChargerState.CHARGER_SHUTDOWN, none)
  | ChargerState.CHARGER_TRICKLE =>
      match r with
      | CycleState.CYCLE_STARTUP => some (ChargerState.CHARGER_TRICKLE, none)
      | CycleState.CYCLE_RUNNING => some (ChargerState.CHARGER_TRICKLE, none)
      | CycleState.CYCLE_DONE =>
          some (ChargerState.CHARGER_STANDBY, some Phase.standby)
      | CycleState.CYCLE_TIMEOUT =>
          some (ChargerState.CHARGER_STANDBY, some Phase.standby)
      | CycleState.CYCLE_ERROR => some (ChargerState.CHARGER_SHUTDOWN, none)
      | _ => some (ChargerState.CHARGER_SHUTDOWN, none)
  | ChargerState.CHARGER_STANDBY =>
      match r with
      | CycleState.CYCLE_RUNNING => some (ChargerState.CHARGER_STANDBY, none)
      | CycleState.CYCLE_TIMEOUT =>
          if bvAvg ≤ BATTERY_DISCHARGED_MV then
            some (ChargerState.CHARGER_FAST, some Phase.fast)
          else
            some (ChargerState.CHARGER_TRICKLE, some Phase.trickle)
      | _ => some (ChargerState.CHARGER_SHUTDOWN, none)
  | ChargerState.CHARGER_SHUTDOWN => some (ChargerState.CHARGER_SHUTDOWN, none)
  | ChargerState.CHARGER_LOAD_TEST =>
      some (ChargerState.CHARGER_LOAD_TEST, none)
  | _ => none

/-- `Vreg::get_current_mA()` (regulator.cpp lines 92-103): the sensor
current is reported only when the bus voltage exceeds the averaged battery
voltage by more than 250 mV; otherwise 0 is forced. -/
def Vreg.get_current_mA (busVoltage batteryAvg sensorCurrent : ℕ) : ℕ :=
  if busVoltage > batteryAvg + 250 then sensorCurrent else 0

/-- `pow10()` (cycle.cpp lines 186-197): integer powers of ten, saturated
at 10^9. -/
def pow10 (exponent : ℕ) : ℕ :=
  if exponent > 9 then 1000000000 else 10 ^ exponent

/-- `milliunits_to_string()` (cycle.cpp lines 200-224).  The
`snprintf(buffer, buffer_len, "%d.%0*d", whole, places, fractional)` call
is modelled as decimal rendering with the fractional part zero-padded to
`places` digits, truncated to `buffer_len - 1` characters. -/
def milliunits_to_string (milliunits places0 buffer_len : ℕ) : String :=
  let places := if places0 > 3 then 3 else places0
  let whole := milliunits / 1000
  let fractional := milliunits % 1000
  let roundingFactor := pow10 (3 - places)
  let rounded := (fractional + roundingFactor / 2) / roundingFactor
  let adjusted := if rounded ≥ pow10 places then (whole + 1, 0) else (whole, rounded)
  let fracDigits := (Nat.repr adjusted.2).data
  let padded := List.replicate (places - fracDigits.length) '0' ++ fracDigits
  String.mk (((Nat.repr adjusted.1).data ++ ['.'] ++ padded).take (buffer_len - 1))

/-- Ring buffer state (`RingBuffer16` in ringbuffer.h).  The backing array
is modelled as a function from index to stored value; `head` points to the
next empty slot and `tail` to the oldest data. -/
structure RingBuffer16 where
  head : ℕ
  tail : ℕ
  buffer_size : ℕ
  buffer : ℕ → ℕ
  buffer_overflow : Bool

/-- `RingBuffer16::init()` (ringbuffer.cpp lines 26-41).  The C++ array is
uninitialized; appended entries always overwrite a slot before it can be
read, so the initial contents are irrelevant and modelled as 0. -/
def RingBuffer16.init (entries : ℕ) : RingBuffer16 :=
  { head := 0, tail := 0, buffer_size := entries,
    buffer := fun _ => 0, buffer_overflow := false }

/-- `RingBuffer16::append()` (ringbuffer.cpp lines 51-68): writes at
`head`, advances `head` with wraparound, and on collision with `tail`
advances `tail` (overwriting the oldest entry) and sets the overflow
flag. -/
def RingBuffer16.append (s : RingBuffer16) (x : ℕ) : RingBuffer16 :=
  if (if s.head + 1 ≥ s.buffer_size then 0 else s.head + 1) = s.tail then
    { head := if s.head + 1 ≥ s.buffer_size then 0 else s.head + 1,
      tail := if s.tail + 1 ≥ s.buffer_size then 0 else s.tail + 1,
      buffer_size := s.buffer_size,
      buffer := fun j => if j = s.head then x else s.buffer j,
      buffer_overflow := true }
  else
    { s with
      head := if s.head + 1 ≥ s.buffer_size then 0 else s.head + 1,
      buffer := fun j => if j = s.head then x else s.buffer j }

/-- `RingBuffer16::available()` (ringbuffer.cpp lines 159-174). -/
def RingBuffer16.available (s : RingBuffer16) : ℕ :=
  if s.buffer_size = 0 then 0
  else if s.head ≥ s.tail then s.head - s.tail
  else s.buffer_size - (s.tail - s.head)

/-- `RingBuffer16::copy()` (ringbuffer.cpp lines 106-130): reads out the
valid entries in oldest-to-newest order, up to the output buffer size.
The copied entries are returned as a list. -/
def RingBuffer16.copy (s : RingBuffer16) (outbuffer_size : ℕ) : List ℕ :=
  (List.range (min s.available outbuffer_size)).map
    (fun n => s.buffer ((s.tail + n) % s.buffer_size))

/-- `RingBuffer16::overflow()` (ringbuffer.cpp lines 177-187): returns the
overflow flag and clears it. -/
def RingBuffer16.overflow (s : RingBuffer16) : Bool × RingBuffer16 :=
  if s.buffer_overflow then (true, { s with buffer_overflow := false })
  else (false, s)

/-- Append a whole list of samples, oldest first. -/
def RingBuffer16.appendList (s : RingBuffer16) (xs : List ℕ) : RingBuffer16 :=
  xs.foldl RingBuffer16.append s

/-- n-fold iteration of `Fast_Charger.run` on a stream of per-tick sensor
inputs, keeping the object state across calls, as the supervisor does when
it invokes `fast_charger.run()` every 100 ms. -/
def Fast_Charger.iterate (p : charge_parm_t) (ins : ℕ → TickInput)
    (s : CycleSt) : ℕ → CycleSt
  | 0 => s
  | n + 1 => (Fast_Charger.run p (ins n) (Fast_Charger.iterate p ins s n)).1

end SmartCharger

namespace SmartCharger

/-- Claim C1 (counterexample): `set_voltage` is not confined to
`[VREG_VOLTAGE_MIN, VREG_VOLTAGE_MAX]` after a `run()` call.  Starting the
fast charger at a battery reading of 5000 mV gives `set_voltage = 4900`;
one overcurrent tick (700 mA > 600 mA) lowers it to 4890 < 5000.  Starting
the topping charger at a battery reading of 17000 mV gives
`set_voltage = 16000`; one low-voltage tick raises it to 16010 > 16000
because `Topping_Charger::run()` never clamps. -/
theorem c1_counterexample :
    (Fast_Charger.run FAST_PARMS ⟨1000, 1000, 700, 10000⟩
        (Charge_Cycle.start 5000)).1.set_voltage = 4890 ∧
    ¬(VREG_VOLTAGE_MIN ≤ 4890 ∧ 4890 ≤ VREG_VOLTAGE_MAX) ∧
    (Topping_Charger.run TOP_PARMS ⟨1000, 1000, 0, 13000⟩
        (Charge_Cycle.start 17000)).1.set_voltage = 16010 ∧
    ¬(VREG_VOLTAGE_MIN ≤ 16010 ∧ 16010 ≤ VREG_VOLTAGE_MAX) := by decide

/-- Claim C1 (amended): only the fast charger clamps `set_voltage`, and
only from above: every `Fast_Charger::run()` call that does not return
`CYCLE_TIMEOUT` leaves `set_voltage ≤ VREG_VOLTAGE_MAX`, for every prior
state and all sensor inputs.  No phase enforces the `VREG_VOLTAGE_MIN`
lower bound, and the topping/trickle handlers do not clamp at all. -/
theorem c1_fast_run_upper_clamp (p : charge_parm_t) (i : TickInput)
    (s : CycleSt) (h : (Fast_Charger.run p i s).2 ≠ CycleState.CYCLE_TIMEOUT) :
    (Fast_Charger.run p i s).1.set_voltage ≤ VREG_VOLTAGE_MAX := by
  dsimp only [Fast_Charger.run] at h ⊢
  by_cases h1 : i.chargeRemaining = 0
  · rw [if_pos h1] at h
    simp at h
  · rw [if_neg h1]
    by_cases h2 : ((if i.startupRemaining ≠ 0 then CycleState.CYCLE_STARTUP
        else CycleState.CYCLE_RUNNING) ≠ CycleState.CYCLE_STARTUP ∧
        p.voltage_target ≤ i.batteryVoltage)
    · rw [if_pos h2]
      dsimp only
      split_ifs <;> omega
    · rw [if_neg h2]
      dsimp only
      split_ifs <;> omega

theorem c1_fast_run_upper_clamp_witness :
    (Fast_Charger.run FAST_PARMS ⟨1000, 1000, 700, 10000⟩
        (Charge_Cycle.start 5000)).2 ≠ CycleState.CYCLE_TIMEOUT ∧
    (Fast_Charger.run FAST_PARMS ⟨1000, 1000, 700, 10000⟩
        (Charge_Cycle.start 5000)).1.set_voltage ≤ VREG_VOLTAGE_MAX :=
  ⟨by decide, c1_fast_run_upper_clamp FAST_PARMS ⟨1000, 1000, 700, 10000⟩
      (Charge_Cycle.start 5000) (by decide)⟩

/-- Claim C2: in the supervisor's `CHARGER_STARTUP` state, a battery
reading at or below `BATTERY_DISCHARGED_MV` moves to `CHARGER_FAST` and
starts the fast charger; a reading above it moves to `CHARGER_TOPPING`
(not fast) and starts the topping charger. -/
theorem c2_startup_threshold (bv bvAvg : ℕ) (r : CycleState) :
    (bv ≤ BATTERY_DISCHARGED_MV →
      loop_step ChargerState.CHARGER_STARTUP bv bvAvg r =
        some (ChargerState.CHARGER_FAST, some Phase.fast)) ∧
    (BATTERY_DISCHARGED_MV < bv →
      loop_step ChargerState.CHARGER_STARTUP bv bvAvg r =
        some (ChargerState.CHARGER_TOPPING, some Phase.topping)) := by
  constructor <;> intro h
  · simp only [loop_step]
    rw [if_pos h]
  · simp only [loop_step]
    rw [if_neg (by omega)]

theorem c2_startup_threshold_witness :
    ((12000 : ℕ) ≤ BATTERY_DISCHARGED_MV ∧
      loop_step ChargerState.CHARGER_STARTUP 12000 0 CycleState.CYCLE_INIT =
        some (ChargerState.CHARGER_FAST, some Phase.fast)) ∧
    (BATTERY_DISCHARGED_MV < (14000 : ℕ) ∧
      loop_step ChargerState.CHARGER_STARTUP 14000 0 CycleState.CYCLE_INIT =
        some (ChargerState.CHARGER_TOPPING, some Phase.topping)) :=
  ⟨⟨by decide, (c2_startup_threshold 12000 0 CycleState.CYCLE_INIT).1 (by decide)⟩,
   ⟨by decide, (c2_startup_threshold 14000 0 CycleState.CYCLE_INIT).2 (by decide)⟩⟩

/-- Claim C3 (counterexample): the claimed per-tick adjustment
"set_voltage increases by step_voltage" fails at the upper clamp.  At the
reachable state obtained by starting the fast charger at a 16050 mV
battery reading (`set_voltage = 16000`), a tick with zero current and
battery voltage below target satisfies all conditions of the
increase branch, yet `set_voltage` stays 16000 rather than growing by
`voltage_step`. -/
theorem c3_counterexample :
    (1000 : ℕ) ≠ 0 ∧
    ¬((1000 : ℕ) = 0 ∧ FAST_PARMS.voltage_target ≤ 14000) ∧
    (0 : ℕ) < FAST_PARMS.current_target ∧
    (0 : ℕ) ≤ FAST_PARMS.current_max ∧
    (14000 : ℕ) < FAST_PARMS.voltage_target ∧
    (Fast_Charger.run FAST_PARMS ⟨1000, 1000, 0, 14000⟩
        (Charge_Cycle.start 16050)).1.set_voltage ≠
      (Charge_Cycle.start 16050).set_voltage + FAST_PARMS.voltage_step := by
  decide

/-- Claim C3 (amended): in `Fast_Charger::run()`, when the cycle has not
timed out, the DONE condition does not hold, and `set_voltage` is at most
`VREG_VOLTAGE_MAX` on entry, the per-tick adjustment follows the claimed
branch priorities, except that the arithmetic is uint32 (a decrease wraps
modulo 2^32 when `step_voltage` exceeds `set_voltage`) and the result is
finally clamped from above to `VREG_VOLTAGE_MAX`: overcurrent decreases by
`step_voltage` with priority over everything else; otherwise current below
`target_current` increases by `step_voltage` when battery voltage is below
`target_voltage` and decreases otherwise; otherwise `set_voltage` is
unchanged. -/
theorem c3_adjustment_cases (p : charge_parm_t) (i : TickInput) (s : CycleSt)
    (h1 : i.chargeRemaining ≠ 0)
    (h2 : ¬(i.startupRemaining = 0 ∧ p.voltage_target ≤ i.batteryVoltage))
    (h3 : s.set_voltage ≤ VREG_VOLTAGE_MAX) :
    (p.current_max < i.current →
      (Fast_Charger.run p i s).1.set_voltage =
        min (sub32 s.set_voltage p.voltage_step) VREG_VOLTAGE_MAX) ∧
    (i.current ≤ p.current_max → i.current < p.current_target →
      i.batteryVoltage < p.voltage_target →
      (Fast_Charger.run p i s).1.set_voltage =
        min (add32 s.set_voltage p.voltage_step) VREG_VOLTAGE_MAX) ∧
    (i.current ≤ p.current_max → i.current < p.current_target →
      p.voltage_target ≤ i.batteryVoltage →
      (Fast_Charger.run p i s).1.set_voltage =
        min (sub32 s.set_voltage p.voltage_step) VREG_VOLTAGE_MAX) ∧
    (i.current ≤ p.current_max → p.current_target ≤ i.current →
      (Fast_Charger.run p i s).1.set_voltage = s.set_voltage) := by
  have hdone : ¬((if i.startupRemaining ≠ 0 then CycleState.CYCLE_STARTUP
      else CycleState.CYCLE_RUNNING) ≠ CycleState.CYCLE_STARTUP ∧
      p.voltage_target ≤ i.batteryVoltage) := by
    rintro ⟨hne, hle⟩
    by_cases hs : i.startupRemaining = 0
    · exact h2 ⟨hs, hle⟩
    · exact hne (if_pos hs)
  have hclamp : ¬(s.set_voltage > VREG_VOLTAGE_MAX) := by omega
  dsimp only [Fast_Charger.run]
  rw [if_neg h1, if_neg hdone, if_neg hclamp]
  dsimp only
  split_ifs <;> refine ⟨?_, ?_, ?_, ?_⟩ <;> intros <;> omega

theorem c3_adjustment_cases_witness :
    (1000 : ℕ) ≠ 0 ∧
    ¬((1000 : ℕ) = 0 ∧ FAST_PARMS.voltage_target ≤ 14000) ∧
    (Charge_Cycle.start 12000).set_voltage ≤ VREG_VOLTAGE_MAX ∧
    (Fast_Charger.run FAST_PARMS ⟨1000, 1000, 0, 14000⟩
        (Charge_Cycle.start 12000)).1.set_voltage =
      min (add32 (Charge_Cycle.start 12000).set_voltage FAST_PARMS.voltage_step)
        VREG_VOLTAGE_MAX :=
  ⟨by decide, by decide, by decide,
   (c3_adjustment_cases FAST_PARMS ⟨1000, 1000, 0, 14000⟩
      (Charge_Cycle.start 12000) (by decide) (by decide) (by decide)).2.1
     (by decide) (by decide) (by decide)⟩

/-- Claim C4: `Trickle_Charger::run()` never returns `CYCLE_DONE`; it
returns `CYCLE_TIMEOUT` exactly when the hardware countdown has elapsed,
and otherwise the continued `CYCLE_STARTUP`/`CYCLE_RUNNING` states. -/
theorem c4_trickle_no_done (p : charge_parm_t) (i : TickInput) (s : CycleSt) :
    (Trickle_Charger.run p i s).2 ≠ CycleState.CYCLE_DONE ∧
    ((Trickle_Charger.run p i s).2 = CycleState.CYCLE_TIMEOUT ↔
      i.chargeRemaining = 0) ∧
    (i.chargeRemaining ≠ 0 →
      (Trickle_Charger.run p i s).2 = CycleState.CYCLE_STARTUP ∨
      (Trickle_Charger.run p i s).2 = CycleState.CYCLE_RUNNING) := by
  dsimp only [Trickle_Charger.run]
  by_cases h : i.chargeRemaining = 0 <;>
    by_cases h2 : i.startupRemaining = 0 <;>
      simp [h, h2]

theorem c4_trickle_no_done_witness :
    (1 : ℕ) ≠ 0 ∧
    ((Trickle_Charger.run TRCKL_PARMS ⟨0, 1, 0, 13500⟩
        (Charge_Cycle.start 13500)).2 = CycleState.CYCLE_STARTUP ∨
     (Trickle_Charger.run TRCKL_PARMS ⟨0, 1, 0, 13500⟩
        (Charge_Cycle.start 13500)).2 = CycleState.CYCLE_RUNNING) :=
  ⟨by decide,
   (c4_trickle_no_done TRCKL_PARMS ⟨0, 1, 0, 13500⟩
      (Charge_Cycle.start 13500)).2.2 (by decide)⟩

/-- Claim C5 (counterexample): `Charge_Cycle::start()` does not clamp the
soft-start result: a battery reading of 5050 mV gives
`set_voltage = 4950`, which is below `VREG_VOLTAGE_MIN`. -/
theorem c5_counterexample :
    (Charge_Cycle.start 5050).set_voltage = 4950 ∧
    ¬(VREG_VOLTAGE_MIN ≤ (Charge_Cycle.start 5050).set_voltage) := by decide

/-- Claim C5 (amended): `Charge_Cycle::start()` clamps the battery voltage
reading itself, not the reading minus 100 mV: a reading below
`VREG_VOLTAGE_MIN` gives exactly `VREG_VOLTAGE_MIN`, a reading above
`VREG_VOLTAGE_MAX` gives exactly `VREG_VOLTAGE_MAX`, and an in-range
reading gives the reading minus 100 mV, which may lie up to 100 mV below
`VREG_VOLTAGE_MIN`.  Hence the initial `set_voltage` always lies in
`[VREG_VOLTAGE_MIN - 100, VREG_VOLTAGE_MAX]`. -/
theorem c5_start_voltage (bv : ℕ) :
    (bv < VREG_VOLTAGE_MIN →
      (Charge_Cycle.start bv).set_voltage = VREG_VOLTAGE_MIN) ∧
    (VREG_VOLTAGE_MIN ≤ bv → bv ≤ VREG_VOLTAGE_MAX →
      (Charge_Cycle.start bv).set_voltage = bv - 100) ∧
    (VREG_VOLTAGE_MAX < bv →
      (Charge_Cycle.start bv).set_voltage = VREG_VOLTAGE_MAX) ∧
    VREG_VOLTAGE_MIN - 100 ≤ (Charge_Cycle.start bv).set_voltage ∧
    (Charge_Cycle.start bv).set_voltage ≤ VREG_VOLTAGE_MAX := by
  dsimp only [Charge_Cycle.start]
  simp only [VREG_VOLTAGE_MIN, VREG_VOLTAGE_MAX]
  refine ⟨?_, ?_, ?_, ?_, ?_⟩ <;> split_ifs <;> intros <;> omega

theorem c5_start_voltage_witness :
    (VREG_VOLTAGE_MIN ≤ (5050 : ℕ) ∧ (5050 : ℕ) ≤ VREG_VOLTAGE_MAX ∧
      (Charge_Cycle.start 5050).set_voltage = 5050 - 100) ∧
    ((4000 : ℕ) < VREG_VOLTAGE_MIN ∧
      (Charge_Cycle.start 4000).set_voltage = VREG_VOLTAGE_MIN) ∧
    ((17000 : ℕ) > VREG_VOLTAGE_MAX ∧
      (Charge_Cycle.start 17000).set_voltage = VREG_VOLTAGE_MAX) :=
  ⟨⟨by decide, by decide,
    (c5_start_voltage 5050).2.1 (by decide) (by decide)⟩,
   ⟨by decide, (c5_start_voltage 4000).1 (by decide)⟩,
   ⟨by decide, (c5_start_voltage 17000).2.2.1 (by decide)⟩⟩

/-- Claim C6: after every `Standby_Charger::run()` call the regulator is
off, regardless of the prior regulator state, sensor inputs or elapsed
time: `run()` forces it off every tick, on both the continuing-RUNNING
path and the TIMEOUT path. -/
theorem c6_standby_regulator_off (p : charge_parm_t) (i : TickInput)
    (s : CycleSt) : (Standby_Charger.run p i s).1.regOn = false := by
  dsimp only [Standby_Charger.run]
  split <;> rfl

/-- Helper: one `RingBuffer16::append()` step on a size-10 buffer whose
head is `k % 10` and whose tail is at the canonical position after `k`
appends, described in closed form. -/
lemma rb_append_step (s : RingBuffer16) (x k : ℕ)
    (hsz : s.buffer_size = 10) (hhd : s.head = k % 10)
    (htl : s.tail = if k < 10 then 0 else (k + 1) % 10) :
    s.append x = ⟨(k + 1) % 10,
      (if k + 1 < 10 then 0 else (k + 2) % 10), 10,
      fun j => if j = k % 10 then x else s.buffer j,
      if k + 1 < 10 then s.buffer_overflow else true⟩ := by
  dsimp only [RingBuffer16.append]
  rw [hsz, hhd, htl]
  have hh : (if k % 10 + 1 ≥ 10 then 0 else k % 10 + 1) = (k + 1) % 10 := by
    split_ifs <;> omega
  rw [hh]
  by_cases hbig : 10 ≤ k + 1
  · have hoc : (k + 1) % 10 = (if k < 10 then 0 else (k + 1) % 10) := by
      split_ifs <;> omega
    rw [if_pos hoc]
    simp only [RingBuffer16.mk.injEq]
    refine ⟨trivial, ?_, trivial, trivial, ?_⟩
    · split_ifs <;> omega
    · rw [if_neg (by omega : ¬(k + 1 < 10))]
  · have hoc : ¬((k + 1) % 10 = (if k < 10 then 0 else (k + 1) % 10)) := by
      split_ifs <;> omega
    rw [if_neg hoc]
    simp only [RingBuffer16.mk.injEq]
    refine ⟨trivial, ?_, trivial, trivial, ?_⟩
    · split_ifs <;> omega
    · rw [if_pos (by omega : k + 1 < 10)]

/-- Helper: closed-form characterization of the size-10 ring buffer after
appending an arbitrary list of samples to the freshly initialized buffer:
head position, tail position, overflow flag, and the slot contents for the
last ten appends. -/
lemma rb10_char (xs : List ℕ) :
    ((RingBuffer16.init 10).appendList xs).buffer_size = 10 ∧
    ((RingBuffer16.init 10).appendList xs).head = xs.length % 10 ∧
    ((RingBuffer16.init 10).appendList xs).tail =
      (if xs.length < 10 then 0 else (xs.length + 1) % 10) ∧
    ((RingBuffer16.init 10).appendList xs).buffer_overflow =
      decide (10 ≤ xs.length) ∧
    ∀ j, j < xs.length → xs.length - j ≤ 10 →
      ((RingBuffer16.init 10).appendList xs).buffer (j % 10) = xs.getD j 0 := by
  induction xs using List.reverseRecOn with
  | nil =>
    refine ⟨rfl, rfl, rfl, rfl, ?_⟩
    intro j hj _
    simp at hj
  | append_singleton xs x ih =>
    obtain ⟨hsz, hhd, htl, hov, hbuf⟩ := ih
    have happ : (RingBuffer16.init 10).appendList (xs ++ [x]) =
        ((RingBuffer16.init 10).appendList xs).append x := by
      simp [RingBuffer16.appendList]
    rw [happ, rb_append_step ((RingBuffer16.init 10).appendList xs) x
      xs.length hsz hhd htl]
    simp only [List.length_append, List.length_singleton]
    refine ⟨trivial, trivial, trivial, ?_, ?_⟩
    · rw [hov]
      split_ifs with hlt
      · exact decide_eq_decide.mpr (by omega)
      · exact (decide_eq_true (by omega)).symm
    · intro j hj hle
      by_cases hjk : j = xs.length
      · subst hjk
        rw [if_pos rfl, List.getD_append_right xs [x] 0 xs.length (le_refl _),
          Nat.sub_self]
        rfl
      · have hne : j % 10 ≠ xs.length % 10 := by omega
        rw [if_neg hne, List.getD_append xs [x] 0 j (by omega)]
        exact hbuf j (by omega) (by omega)

/-- Claim C8: for the current-history ring buffer (capacity argument 10,
`RB_CHARGING_CURRENT_SAMPLES`), any append sequence longer than the buffer
capacity overwrites the oldest samples so that reading the buffer out
(`copy` of all `available` entries) yields exactly the most recent nine
samples, and sets the overflow flag; `overflow()` then reports `true` once
and clears the flag, so a second `overflow()` call returns `false`. -/
theorem c8_ring_buffer_history (xs : List ℕ) (h : 10 < xs.length) :
    ((RingBuffer16.init 10).appendList xs).copy
        ((RingBuffer16.init 10).appendList xs).available =
      xs.drop (xs.length - 9) ∧
    ((RingBuffer16.init 10).appendList xs).buffer_overflow = true ∧
    ((RingBuffer16.init 10).appendList xs).overflow.1 = true ∧
    (((RingBuffer16.init 10).appendList xs).overflow.2).overflow.1 = false := by
  obtain ⟨hsz, hhd, htl, hov, hbuf⟩ := rb10_char xs
  have hovt : ((RingBuffer16.init 10).appendList xs).buffer_overflow = true := by
    rw [hov]
    exact decide_eq_true (by omega)
  have htl2 : ((RingBuffer16.init 10).appendList xs).tail =
      (xs.length + 1) % 10 := by
    rw [htl, if_neg (by omega : ¬ xs.length < 10)]
  have havail : ((RingBuffer16.init 10).appendList xs).available = 9 := by
    unfold RingBuffer16.available
    rw [hsz, hhd, htl2, if_neg (show ¬(10 : ℕ) = 0 by omega)]
    split_ifs <;> omega
  refine ⟨?_, hovt, ?_, ?_⟩
  · unfold RingBuffer16.copy
    rw [havail, hsz, htl2]
    simp only [Nat.min_self]
    apply List.ext_getElem
    · simp
      omega
    · intro i h1 h2
      have h1a : i < 9 := by simpa using h1
      rw [List.getElem_map, List.getElem_range, List.getElem_drop]
      have hslot : ((xs.length + 1) % 10 + i) % 10 =
          (xs.length - 9 + i) % 10 := by omega
      rw [hslot, hbuf (xs.length - 9 + i) (by omega) (by omega)]
      exact List.getD_eq_getElem xs 0 (by omega)
  · simp [RingBuffer16.overflow, hovt]
  · simp [RingBuffer16.overflow, hovt]

theorem c8_ring_buffer_history_witness :
    10 < ([1, 2, 3, 4, 5, 6, 7, 8, 9, 10, 11] : List ℕ).length ∧
    (((RingBuffer16.init 10).appendList [1, 2, 3, 4, 5, 6, 7, 8, 9, 10, 11]).copy
        ((RingBuffer16.init 10).appendList
          [1, 2, 3, 4, 5, 6, 7, 8, 9, 10, 11]).available =
      ([1, 2, 3, 4, 5, 6, 7, 8, 9, 10, 11] : List ℕ).drop
        (([1, 2, 3, 4, 5, 6, 7, 8, 9, 10, 11] : List ℕ).length - 9) ∧
    ((RingBuffer16.init 10).appendList
        [1, 2, 3, 4, 5, 6, 7, 8, 9, 10, 11]).buffer_overflow = true ∧
    ((RingBuffer16.init 10).appendList
        [1, 2, 3, 4, 5, 6, 7, 8, 9, 10, 11]).overflow.1 = true ∧
    (((RingBuffer16.init 10).appendList
        [1, 2, 3, 4, 5, 6, 7, 8, 9, 10, 11]).overflow.2).overflow.1 = false) :=
  ⟨by decide, c8_ring_buffer_history [1, 2, 3, 4, 5, 6, 7, 8, 9, 10, 11]
    (by decide)⟩

/-- Claim C9: `milliunits_to_string` with one decimal place rounds half-up
at the half-unit boundary: 13450 renders as "13.5" and 13440 as "13.4"
(with the callers' 6-byte buffer). -/
theorem c9_milliunits_rounding :
    milliunits_to_string 13450 1 6 = "13.5" ∧
    milliunits_to_string 13440 1 6 = "13.4" := by decide

/-- Claim C10: `Vreg::get_current_mA()` returns 0 whenever the bus voltage
is not strictly greater than the averaged battery voltage plus 250 mV,
regardless of the sensor's current reading; only above that threshold is
the sensor value returned. -/
theorem c10_current_filter (bus avg c : ℕ) :
    (bus ≤ avg + 250 → Vreg.get_current_mA bus avg c = 0) ∧
    (avg + 250 < bus → Vreg.get_current_mA bus avg c = c) := by
  unfold Vreg.get_current_mA
  constructor <;> intro h
  · rw [if_neg (by omega : ¬(bus > avg + 250))]
  · rw [if_pos (by omega : bus > avg + 250)]

/-- Claim C7: for `Fast_Charger::run()`, when on every tick the measured
current is below `target_current` and at most `max_current`, the battery
voltage is below `target_voltage`, and the cycle has not timed out, each
successive `run()` call increases `set_voltage` by exactly `voltage_step`
until it reaches `VREG_VOLTAGE_MAX`, where it is clamped and stays:
after `n` calls the value is `min (initial + n * step) VREG_VOLTAGE_MAX`. -/
theorem c7_fast_monotone_ramp (p : charge_parm_t) (ins : ℕ → TickInput)
    (s : CycleSt) (hs : s.set_voltage ≤ VREG_VOLTAGE_MAX)
    (hstep : p.voltage_step ≤ 1000000)
    (hcur : ∀ n, (ins n).current < p.current_target)
    (hmax : ∀ n, (ins n).current ≤ p.current_max)
    (hbv : ∀ n, (ins n).batteryVoltage < p.voltage_target)
    (ht : ∀ n, (ins n).chargeRemaining ≠ 0) (n : ℕ) :
    (Fast_Charger.iterate p ins s n).set_voltage =
      min (s.set_voltage + n * p.voltage_step) VREG_VOLTAGE_MAX := by
  have hM : VREG_VOLTAGE_MAX = 16000 := rfl
  induction n with
  | zero =>
    dsimp only [Fast_Charger.iterate]
    omega
  | succ n ih =>
    dsimp only [Fast_Charger.iterate, Fast_Charger.run]
    rw [if_neg (ht n)]
    have hdone : ¬((if (ins n).startupRemaining ≠ 0 then CycleState.CYCLE_STARTUP
        else CycleState.CYCLE_RUNNING) ≠ CycleState.CYCLE_STARTUP ∧
        p.voltage_target ≤ (ins n).batteryVoltage) := by
      rintro ⟨-, hle⟩
      have := hbv n
      omega
    rw [if_neg hdone]
    have hcl : ¬((Fast_Charger.iterate p ins s n).set_voltage >
        VREG_VOLTAGE_MAX) := by omega
    rw [if_neg hcl]
    have hoc : ¬((ins n).current > p.current_max) := by
      have := hmax n
      omega
    dsimp only
    rw [if_neg hoc, if_pos (hcur n), if_pos (hbv n)]
    have hadd : add32 (Fast_Charger.iterate p ins s n).set_voltage
        p.voltage_step =
        (Fast_Charger.iterate p ins s n).set_voltage + p.voltage_step := by
      unfold add32 U32
      apply Nat.mod_eq_of_lt
      omega
    rw [hadd, Nat.succ_mul]
    split_ifs <;> omega

theorem c7_fast_monotone_ramp_witness :
    (Charge_Cycle.start 16095).set_voltage ≤ VREG_VOLTAGE_MAX ∧
    FAST_PARMS.voltage_step ≤ 1000000 ∧
    (Fast_Charger.iterate FAST_PARMS (fun _ => ⟨1, 1, 0, 14000⟩)
        (Charge_Cycle.start 16095) 2).set_voltage =
      min ((Charge_Cycle.start 16095).set_voltage + 2 * FAST_PARMS.voltage_step)
        VREG_VOLTAGE_MAX :=
  ⟨by decide, by decide,
   c7_fast_monotone_ramp FAST_PARMS (fun _ => ⟨1, 1, 0, 14000⟩)
     (Charge_Cycle.start 16095) (by decide) (by decide)
     (fun _ => by show (0 : ℕ) < FAST_PARMS.current_target; decide)
     (fun _ => by show (0 : ℕ) ≤ FAST_PARMS.current_max; decide)
     (fun _ => by show (14000 : ℕ) < FAST_PARMS.voltage_target; decide)
     (fun _ => by show (1 : ℕ) ≠ 0; decide) 2⟩

theorem c10_current_filter_witness :
    ((300 : ℕ) ≤ 100 + 250 ∧ Vreg.get_current_mA 300 100 5000 = 0) ∧
    ((100 : ℕ) + 250 < 500 ∧ Vreg.get_current_mA 500 100 5000 = 5000) :=
  ⟨⟨by decide, (c10_current_filter 300 100 5000).1 (by decide)⟩,
   ⟨by decide, (c10_current_filter 500 100 5000).2 (by decide)⟩⟩

end SmartCharger
